import Mathlib

/-!
Shallow embedding of the yandex-checkout-node client library.

The authoritative source is `src/lib/index.js` (the `YandexCheckout` constructor and its
prototype of facade methods).  The transport utility `src/lib/utils.js` and the result
models `src/lib/models/payment.js` / `src/lib/models/refund.js` are required by
`index.js` but are not included under `src/`; where a definition embeds one of those
missing files it is modelled from the specification and its doc comment says so.

JavaScript dynamic values are embedded as the inductive `JsValue`; machine-level JS
number subtleties (floats, NaN) are not exercised by any claim, so numbers are `Int`.
-/

/-- A JavaScript value: `undefined`, `null`, booleans, numbers (as `Int`; no claim
exercises float behaviour), strings, arrays and plain objects (ordered field lists). -/
inductive JsValue where
  | undefined
  | null
  | bool (b : Bool)
  | num (n : Int)
  | str (s : String)
  | arr (elems : List JsValue)
  | obj (fields : List (String × JsValue))

/-- JS truthiness: `undefined`, `null`, `false`, `0` and `""` are falsy; every object,
array, nonzero number and nonempty string is truthy. -/
def JsValue.truthy : JsValue → Bool
  | .undefined => false
  | .null => false
  | .bool b => b
  | .num n => n != 0
  | .str s => s != ""
  | .arr _ => true
  | .obj _ => true

/-- The JS `typeof` operator.  Note `typeof null === "object"`. -/
def JsValue.typeof : JsValue → String
  | .undefined => "undefined"
  | .null => "object"
  | .bool _ => "boolean"
  | .num _ => "number"
  | .str _ => "string"
  | .arr _ => "object"
  | .obj _ => "object"

/-- JS property read `o[k]`: `none` models the `TypeError` thrown when the receiver is
`null` or `undefined`; on an object it yields the field value or `undefined` when the
field is absent; on other primitives and arrays the named properties read by
`index.js` are absent, hence `undefined`. -/
def JsValue.getProp : JsValue → String → Option JsValue
  | .undefined, _ => none
  | .null, _ => none
  | .obj fields, k => some ((fields.lookup k).getD .undefined)
  | _, _ => some .undefined

/-- JS `a || b`: the left operand when truthy, otherwise the right operand. -/
def JsValue.jsOr (a b : JsValue) : JsValue :=
  if a.truthy then a else b

/-- JS `ToString` on the values the embedded code can feed to `+` and to template
literals (primitives and plain objects). -/
def JsValue.jsToString : JsValue → String
  | .undefined => "undefined"
  | .null => "null"
  | .bool b => if b then "true" else "false"
  | .num n => toString n
  | .str s => s
  | .arr _ => ""
  | .obj _ => "[object Object]"

/-- JS `+`: numeric addition on two numbers, otherwise string concatenation of the
`ToString` images (the only cases `index.js` exercises: string/string and
string/undefined concatenation in the constructor). -/
def JsValue.jsAdd (a b : JsValue) : JsValue :=
  match a, b with
  | .num x, .num y => .num (x + y)
  | a, b => .str (a.jsToString ++ b.jsToString)

/-- Field read on a parsed JSON object: the field value, or `undefined` when absent
(also on non-objects). -/
def JsValue.field : JsValue → String → JsValue
  | .obj fields, k => (fields.lookup k).getD .undefined
  | _, _ => .undefined

/-- The client instance built by the `YandexCheckout` constructor
(`src/lib/index.js` lines 7-25): the five own properties it assigns. -/
structure YandexCheckout where
  shopId : JsValue
  secretKey : JsValue
  root : JsValue
  debug : JsValue
  timeout : JsValue

/-- Embeds `YandexCheckout.DEFAULT_BASE_HOST` (`src/lib/index.js` line 28). -/
def DEFAULT_BASE_HOST : String := "https://api.yookassa.ru"

/-- Embeds `YandexCheckout.DEFAULT_BASE_PATH` (`src/lib/index.js` line 29). -/
def DEFAULT_BASE_PATH : String := "/v3/"

/-- Embeds `YandexCheckout.DEFAULT_DEBUG` (`src/lib/index.js` line 30). -/
def DEFAULT_DEBUG : JsValue := .bool false

/-- The `YandexCheckout` constructor (`src/lib/index.js` lines 7-25).
`YandexCheckout.DEFAULT_TIMEOUT` is `require("http").createServer().timeout`, the
platform default HTTP server timeout, so it enters as the parameter `defaultTimeout`.
If the first argument has `typeof === "object"` it is taken as the options object,
otherwise the two positional arguments become `shopId` and `secretKey`.  Property
reads on the options value can throw (first argument `null`), hence the `Option`. -/
def YandexCheckout.create (defaultTimeout shopId secretKey : JsValue) :
    Option YandexCheckout := do
  let options : JsValue :=
    if shopId.typeof == "object" then shopId
    else .obj [("shopId", shopId), ("secretKey", secretKey)]
  let oShopId ← options.getProp "shopId"
  let oSecretKey ← options.getProp "secretKey"
  let oBaseHost ← options.getProp "base_host"
  let oBasePath ← options.getProp "base_path"
  let oDebug ← options.getProp "debug"
  let oTimeout ← options.getProp "timeout"
  pure
    { shopId := oShopId
      secretKey := oSecretKey
      root := (oBaseHost.jsOr (.str DEFAULT_BASE_HOST)).jsAdd
        (oBasePath.jsOr (.str DEFAULT_BASE_PATH))
      debug := oDebug.jsOr DEFAULT_DEBUG
      timeout := oTimeout.jsOr defaultTimeout }

/-- The module export `init` (`src/lib/index.js` line 410):
`(shopId, secretKey) => new YandexCheckout(shopId, secretKey)`. -/
def init (defaultTimeout shopId secretKey : JsValue) : Option YandexCheckout :=
  YandexCheckout.create defaultTimeout shopId secretKey

/-- The header name carrying the idempotency key (spec section 6: header
`Idempotence-Key` carrying the caller-supplied idempotency token). -/
def IDEMPOTENCE_HEADER : String := "Idempotence-Key"

/-- Modelled from the spec: the HTTP request built by the transport utility
`utils.request` (file `src/lib/utils.js` is not under `src/`).  Per spec section 4.1
it records the method, the full URL (configured base root concatenated with the
resource path), the headers (JSON content type, plus the idempotency key header
exactly when a key is supplied), basic-auth credentials (shop id as username, secret
key as password), the JSON-serialized body and the configured timeout. -/
structure HttpRequest where
  method : String
  url : String
  headers : List (String × String)
  authUser : JsValue
  authPass : JsValue
  body : JsValue
  timeout : JsValue

/-- An HTTP response as the transport sees it: a status code and the JSON body
(`none` models a malformed, unparseable body). -/
structure HttpResponse where
  status : Nat
  body : Option JsValue

/-- Modelled from the spec: the settled state of the promise a call returns (spec
sections 4.1 and 7): success with a value, an `APIError` carrying the HTTP status and
the parsed error body, or a `TransportError` carrying the underlying cause. -/
inductive ApiOutcome (α : Type) where
  | ok (value : α)
  | apiError (status : Nat) (errorBody : JsValue)
  | transportError (cause : String)

/-- Promise `.then` on the success channel: failures pass through unchanged. -/
def ApiOutcome.map {α β : Type} (f : α → β) : ApiOutcome α → ApiOutcome β
  | .ok v => .ok (f v)
  | .apiError s b => .apiError s b
  | .transportError c => .transportError c

/-- Modelled from the spec: how `utils.request` settles given the server response
(spec section 4.1): malformed JSON fails with a transport error; a non-success
(non-2xx) status fails with an API error carrying the status code and parsed error
body; otherwise it resolves to the parsed JSON body. -/
def handleResponse (resp : HttpResponse) : ApiOutcome JsValue :=
  match resp.body with
  | none => .transportError "malformed JSON"
  | some parsed =>
    if 200 ≤ resp.status ∧ resp.status < 300 then .ok parsed
    else .apiError resp.status parsed

/-- Modelled from the spec: the request `utils.request` constructs from a method, a
resource path, a body and an optional idempotency key (spec section 4.1). -/
def buildRequest (c : YandexCheckout) (method path : String) (body : JsValue)
    (idemKey : Option String) : HttpRequest :=
  { method := method
    url := (c.root.jsAdd (.str path)).jsToString
    headers :=
      ("Content-Type", "application/json") ::
        (match idemKey with
          | some k => [(IDEMPOTENCE_HEADER, k)]
          | none => [])
    authUser := c.shopId
    authPass := c.secretKey
    body := body
    timeout := c.timeout }

/-- Modelled from the spec: `utils.request` (file `src/lib/utils.js` is not under
`src/`).  A single attempt per call — no retries, no backoff (spec section 4.1) — so
the list of issued requests is the singleton of the request built from the
arguments, and the outcome is determined by the server response alone. -/
def utilsRequest (c : YandexCheckout) (method path : String) (body : JsValue)
    (idemKey : Option String) (resp : HttpResponse) :
    List HttpRequest × ApiOutcome JsValue :=
  ([buildRequest c method path body idemKey], handleResponse resp)

/-- Modelled from the spec: the `Payment` result model (file
`src/lib/models/payment.js` is not under `src/`).  Per spec section 3 it is a thin
value object constructed as `new Payment(_self, data)` from the client instance and
the parsed server response; it stores the parsed response fields and every model
field is a direct, lossless projection of the corresponding response field (no
derived or cached computation). -/
structure Payment where
  client : YandexCheckout
  data : JsValue

/-- A `Payment` model field: the direct projection of the stored response field. -/
def Payment.field (p : Payment) (name : String) : JsValue :=
  p.data.field name

/-- Modelled from the spec: the `Refund` result model (file
`src/lib/models/refund.js` is not under `src/`); same construction and lifecycle
rules as `Payment` (spec section 3). -/
structure Refund where
  client : YandexCheckout
  data : JsValue

/-- A `Refund` model field: the direct projection of the stored response field. -/
def Refund.field (r : Refund) (name : String) : JsValue :=
  r.data.field name

/-- What one facade method call produces: the instance as the method leaves it (the
method bodies in `src/lib/index.js` contain no assignment to `this`, so each returns
its receiver unchanged), the HTTP requests issued, and the settled promise value. -/
structure CallResult (α : Type) where
  self : YandexCheckout
  requests : List HttpRequest
  outcome : ApiOutcome α

/-- Embeds `_createPayment(payload, idempotenceKey)` (`src/lib/index.js` lines 90-92):
`utils.request.call(this, "POST", "payments", payload, idempotenceKey)`. -/
def _createPayment (c : YandexCheckout) (payload : JsValue) (idemKey : Option String)
    (resp : HttpResponse) : CallResult JsValue :=
  let r := utilsRequest c "POST" "payments" payload idemKey resp
  ⟨c, r.1, r.2⟩

/-- Embeds `createPayment(payload, idempotenceKey)` (`src/lib/index.js` lines 117-121):
`this._createPayment(payload, idempotenceKey).then(data => new Payment(_self, data))`. -/
def createPayment (c : YandexCheckout) (payload : JsValue) (idemKey : Option String)
    (resp : HttpResponse) : CallResult Payment :=
  let r := _createPayment c payload idemKey resp
  ⟨r.self, r.requests, r.outcome.map (fun data => Payment.mk c data)⟩

/-- Embeds `_getPaymentInfo(paymentId, idempotenceKey)` (`src/lib/index.js` lines 155-157):
`utils.request.call(this, "GET", `payments/${paymentId}`, {}, idempotenceKey)`. -/
def _getPaymentInfo (c : YandexCheckout) (paymentId : String) (idemKey : Option String)
    (resp : HttpResponse) : CallResult JsValue :=
  let r := utilsRequest c "GET" ("payments/" ++ paymentId) (.obj []) idemKey resp
  ⟨c, r.1, r.2⟩

/-- Embeds `getPayment(paymentId, idempotenceKey)` (`src/lib/index.js` lines 168-172). -/
def getPayment (c : YandexCheckout) (paymentId : String) (idemKey : Option String)
    (resp : HttpResponse) : CallResult Payment :=
  let r := _getPaymentInfo c paymentId idemKey resp
  ⟨r.self, r.requests, r.outcome.map (fun data => Payment.mk c data)⟩

/-- Embeds `_capturePayment(paymentId, amount, idempotenceKey)` (`src/lib/index.js` lines
215-221): `utils.request.call(this, "POST", `payments/${paymentId}/capture`,
{ amount }, idempotenceKey)`. -/
def _capturePayment (c : YandexCheckout) (paymentId : String) (amount : JsValue)
    (idemKey : Option String) (resp : HttpResponse) : CallResult JsValue :=
  let r := utilsRequest c "POST" ("payments/" ++ paymentId ++ "/capture")
    (.obj [("amount", amount)]) idemKey resp
  ⟨c, r.1, r.2⟩

/-- Embeds `capturePayment(paymentId, amount, idempotenceKey)` (`src/lib/index.js` lines
239-243). -/
def capturePayment (c : YandexCheckout) (paymentId : String) (amount : JsValue)
    (idemKey : Option String) (resp : HttpResponse) : CallResult Payment :=
  let r := _capturePayment c paymentId amount idemKey resp
  ⟨r.self, r.requests, r.outcome.map (fun data => Payment.mk c data)⟩

/-- Embeds `_cancelPayment(paymentId, idempotenceKey)` (`src/lib/index.js` lines 278-283):
`utils.request.call(this, "POST", `payments/${paymentId}/cancel`, {},
idempotenceKey)`. -/
def _cancelPayment (c : YandexCheckout) (paymentId : String) (idemKey : Option String)
    (resp : HttpResponse) : CallResult JsValue :=
  let r := utilsRequest c "POST" ("payments/" ++ paymentId ++ "/cancel") (.obj [])
    idemKey resp
  ⟨c, r.1, r.2⟩

/-- Embeds `cancelPayment(paymentId, idempotenceKey)` (`src/lib/index.js` lines 293-297). -/
def cancelPayment (c : YandexCheckout) (paymentId : String) (idemKey : Option String)
    (resp : HttpResponse) : CallResult Payment :=
  let r := _cancelPayment c paymentId idemKey resp
  ⟨r.self, r.requests, r.outcome.map (fun data => Payment.mk c data)⟩

/-- Embeds `_createRefund(paymentId, amount, idempotenceKey)` (`src/lib/index.js` lines
316-325): `utils.request.call(this, "POST", "refunds", { amount, payment_id:
paymentId }, idempotenceKey)`. -/
def _createRefund (c : YandexCheckout) (paymentId : String) (amount : JsValue)
    (idemKey : Option String) (resp : HttpResponse) : CallResult JsValue :=
  let r := utilsRequest c "POST" "refunds"
    (.obj [("amount", amount), ("payment_id", .str paymentId)]) idemKey resp
  ⟨c, r.1, r.2⟩

/-- Embeds `createRefund(paymentId, amount, idempotenceKey)` (`src/lib/index.js` lines
356-361): the raw call followed by `.then(data => new Refund(_self, data))`. -/
def createRefund (c : YandexCheckout) (paymentId : String) (amount : JsValue)
    (idemKey : Option String) (resp : HttpResponse) : CallResult Refund :=
  let r := _createRefund c paymentId amount idemKey resp
  ⟨r.self, r.requests, r.outcome.map (fun data => Refund.mk c data)⟩

/-- Embeds `_getRefundInfo(refundId, idempotenceKey)` (`src/lib/index.js` lines 385-387):
`utils.request.call(this, "GET", `refunds/${refundId}`, {}, idempotenceKey)`. -/
def _getRefundInfo (c : YandexCheckout) (refundId : String) (idemKey : Option String)
    (resp : HttpResponse) : CallResult JsValue :=
  let r := utilsRequest c "GET" ("refunds/" ++ refundId) (.obj []) idemKey resp
  ⟨c, r.1, r.2⟩

/-- Embeds `getRefund(refundId, idempotenceKey)` (`src/lib/index.js` lines 397-402). -/
def getRefund (c : YandexCheckout) (refundId : String) (idemKey : Option String)
    (resp : HttpResponse) : CallResult Refund :=
  let r := _getRefundInfo c refundId idemKey resp
  ⟨r.self, r.requests, r.outcome.map (fun data => Refund.mk c data)⟩

/-- Helper: what the constructor yields on any options object. -/
theorem create_obj_eq (defaultTimeout sk2 : JsValue) (fields : List (String × JsValue)) :
    YandexCheckout.create defaultTimeout (.obj fields) sk2 = some
      { shopId := (fields.lookup "shopId").getD .undefined
        secretKey := (fields.lookup "secretKey").getD .undefined
        root := (((fields.lookup "base_host").getD .undefined).jsOr
            (.str DEFAULT_BASE_HOST)).jsAdd
          (((fields.lookup "base_path").getD .undefined).jsOr (.str DEFAULT_BASE_PATH))
        debug := ((fields.lookup "debug").getD .undefined).jsOr DEFAULT_DEBUG
        timeout := ((fields.lookup "timeout").getD .undefined).jsOr defaultTimeout } := by
  simp [YandexCheckout.create, JsValue.getProp, JsValue.typeof]

/-- Helper: the headers of a built request with an idempotency key supplied. -/
theorem buildRequest_headers_some (c : YandexCheckout) (method path : String)
    (body : JsValue) (key : String) :
    (buildRequest c method path body (some key)).headers =
      [("Content-Type", "application/json"), (IDEMPOTENCE_HEADER, key)] := rfl

/-- Helper: the headers of a built request with the idempotency key omitted. -/
theorem buildRequest_headers_none (c : YandexCheckout) (method path : String)
    (body : JsValue) :
    (buildRequest c method path body none).headers =
      [("Content-Type", "application/json")] := rfl

/-- A concrete client instance used to instantiate the universally quantified
theorems below. -/
def cfgEx : YandexCheckout :=
  { shopId := .str "your_shop_id"
    secretKey := .str "your_secret_key"
    root := .str (DEFAULT_BASE_HOST ++ DEFAULT_BASE_PATH)
    debug := .bool false
    timeout := .num 120000 }

/-- A concrete payment payload (the spec section 8 example scenario). -/
def payloadEx : JsValue :=
  .obj [("amount", .obj [("value", .str "2.00"), ("currency", .str "RUB")]),
        ("payment_method_data", .obj [("type", .str "bank_card")]),
        ("confirmation", .obj [("type", .str "redirect"),
          ("return_url", .str "https://example.com")])]

/-- A concrete amount object. -/
def amountEx : JsValue :=
  .obj [("value", .str "2.00"), ("currency", .str "RUB")]

/-- A concrete parsed success response body (the spec section 8 example scenario). -/
def parsedEx : JsValue :=
  .obj [("id", .str "215d8da0-000f-50be-b000-0003308c89be"),
        ("status", .str "waiting_for_capture"),
        ("paid", .bool true),
        ("amount", .obj [("value", .str "2.00"), ("currency", .str "RUB")])]

/-- A concrete 200 response carrying `parsedEx`. -/
def respOkEx : HttpResponse := ⟨200, some parsedEx⟩

/-- A concrete parsed error body. -/
def errBodyEx : JsValue :=
  .obj [("type", .str "error"), ("description", .str "Payment not found")]

/-- A concrete 404 response carrying `errBodyEx`. -/
def respErrEx : HttpResponse := ⟨404, some errBodyEx⟩

/-- C1: for every payment payload and every optional idempotency key, `createPayment`
performs exactly one POST request to the resource path `payments` with that payload as
the body, and on a successful (2xx, well-formed JSON) response resolves to a `Payment`
model constructed from the server response, every model field equal to the
corresponding response field verbatim. -/
theorem createPayment_one_post_verbatim (c : YandexCheckout) (payload : JsValue)
    (idemKey : Option String) (resp : HttpResponse) (parsed : JsValue)
    (hbody : resp.body = some parsed)
    (hstatus : 200 ≤ resp.status ∧ resp.status < 300) :
    (createPayment c payload idemKey resp).requests =
      [buildRequest c "POST" "payments" payload idemKey] ∧
    (buildRequest c "POST" "payments" payload idemKey).method = "POST" ∧
    (buildRequest c "POST" "payments" payload idemKey).url =
      (c.root.jsAdd (.str "payments")).jsToString ∧
    (buildRequest c "POST" "payments" payload idemKey).body = payload ∧
    (createPayment c payload idemKey resp).outcome = .ok (Payment.mk c parsed) ∧
    (∀ name : String, (Payment.mk c parsed).field name = parsed.field name) := by
  refine ⟨rfl, rfl, rfl, rfl, ?_, fun _ => rfl⟩
  simp [createPayment, _createPayment, utilsRequest, handleResponse, hbody,
    hstatus.1, hstatus.2, ApiOutcome.map]

/-- C1 witness: the section 8 example scenario, evaluated. -/
theorem createPayment_one_post_verbatim_witness :
    (createPayment cfgEx payloadEx (some "6daac9fa-342d-4264-91c5-b5eafd1a0010")
        respOkEx).outcome = .ok (Payment.mk cfgEx parsedEx) :=
  (createPayment_one_post_verbatim cfgEx payloadEx
    (some "6daac9fa-342d-4264-91c5-b5eafd1a0010") respOkEx parsedEx rfl
    (by constructor <;> decide)).2.2.2.2.1

/-- C3: `capturePayment(id, amount)` issues exactly one POST to
`payments/{id}/capture` whose body is exactly the single-field object `{amount}`. -/
theorem capturePayment_request_shape (c : YandexCheckout) (paymentId : String)
    (amount : JsValue) (idemKey : Option String) (resp : HttpResponse) :
    (capturePayment c paymentId amount idemKey resp).requests =
      [buildRequest c "POST" ("payments/" ++ paymentId ++ "/capture")
        (.obj [("amount", amount)]) idemKey] ∧
    (buildRequest c "POST" ("payments/" ++ paymentId ++ "/capture")
        (.obj [("amount", amount)]) idemKey).method = "POST" ∧
    (buildRequest c "POST" ("payments/" ++ paymentId ++ "/capture")
        (.obj [("amount", amount)]) idemKey).url =
      (c.root.jsAdd (.str ("payments/" ++ paymentId ++ "/capture"))).jsToString ∧
    (buildRequest c "POST" ("payments/" ++ paymentId ++ "/capture")
        (.obj [("amount", amount)]) idemKey).body = .obj [("amount", amount)] :=
  ⟨rfl, rfl, rfl, rfl⟩

/-- C4: `createRefund(paymentId, amount)` issues exactly one POST to `refunds` whose
body is exactly `{amount, payment_id: paymentId}`, and on a successful response
resolves to a `Refund` model constructed from the parsed response. -/
theorem createRefund_request_shape (c : YandexCheckout) (paymentId : String)
    (amount : JsValue) (idemKey : Option String) (resp : HttpResponse)
    (parsed : JsValue) (hbody : resp.body = some parsed)
    (hstatus : 200 ≤ resp.status ∧ resp.status < 300) :
    (createRefund c paymentId amount idemKey resp).requests =
      [buildRequest c "POST" "refunds"
        (.obj [("amount", amount), ("payment_id", .str paymentId)]) idemKey] ∧
    (buildRequest c "POST" "refunds"
        (.obj [("amount", amount), ("payment_id", .str paymentId)]) idemKey).method =
      "POST" ∧
    (buildRequest c "POST" "refunds"
        (.obj [("amount", amount), ("payment_id", .str paymentId)]) idemKey).body =
      .obj [("amount", amount), ("payment_id", .str paymentId)] ∧
    (createRefund c paymentId amount idemKey resp).outcome =
      .ok (Refund.mk c parsed) := by
  refine ⟨rfl, rfl, rfl, ?_⟩
  simp [createRefund, _createRefund, utilsRequest, handleResponse, hbody,
    hstatus.1, hstatus.2, ApiOutcome.map]

/-- C4 witness at concrete inputs. -/
theorem createRefund_request_shape_witness :
    (createRefund cfgEx "215d8da0-000f-50be-b000-0003308c89be" amountEx none
        respOkEx).outcome = .ok (Refund.mk cfgEx parsedEx) :=
  (createRefund_request_shape cfgEx "215d8da0-000f-50be-b000-0003308c89be" amountEx
    none respOkEx parsedEx rfl (by constructor <;> decide)).2.2.2

/-- C7: `getPayment(id)` issues exactly one GET to `payments/{id}` with the empty
object as body, and on a successful response resolves to a `Payment` model
constructed from the parsed response. -/
theorem getPayment_request_shape (c : YandexCheckout) (paymentId : String)
    (idemKey : Option String) (resp : HttpResponse) (parsed : JsValue)
    (hbody : resp.body = some parsed)
    (hstatus : 200 ≤ resp.status ∧ resp.status < 300) :
    (getPayment c paymentId idemKey resp).requests =
      [buildRequest c "GET" ("payments/" ++ paymentId) (.obj []) idemKey] ∧
    (buildRequest c "GET" ("payments/" ++ paymentId) (.obj []) idemKey).method =
      "GET" ∧
    (buildRequest c "GET" ("payments/" ++ paymentId) (.obj []) idemKey).url =
      (c.root.jsAdd (.str ("payments/" ++ paymentId))).jsToString ∧
    (buildRequest c "GET" ("payments/" ++ paymentId) (.obj []) idemKey).body =
      .obj [] ∧
    (getPayment c paymentId idemKey resp).outcome = .ok (Payment.mk c parsed) := by
  refine ⟨rfl, rfl, rfl, rfl, ?_⟩
  simp [getPayment, _getPaymentInfo, utilsRequest, handleResponse, hbody,
    hstatus.1, hstatus.2, ApiOutcome.map]

/-- C7 witness at concrete inputs. -/
theorem getPayment_request_shape_witness :
    (getPayment cfgEx "215d8da0-000f-50be-b000-0003308c89be" none respOkEx).outcome =
      .ok (Payment.mk cfgEx parsedEx) :=
  (getPayment_request_shape cfgEx "215d8da0-000f-50be-b000-0003308c89be" none
    respOkEx parsedEx rfl (by constructor <;> decide)).2.2.2.2

/-- C2: each public facade method settles exactly as its internal raw call does with
the success value wrapped into the result model, so failures pass through unchanged
(`ApiOutcome.map` keeps `apiError` and `transportError` verbatim); in particular, for
every well-formed non-2xx response every public method rejects with an `APIError`
carrying the response status and the parsed error body. -/
theorem facade_error_propagation (c : YandexCheckout) (payload amount : JsValue)
    (paymentId refundId : String) (idemKey : Option String) (resp : HttpResponse)
    (parsed : JsValue) (hbody : resp.body = some parsed)
    (hstatus : ¬(200 ≤ resp.status ∧ resp.status < 300)) :
    (createPayment c payload idemKey resp).outcome =
      (_createPayment c payload idemKey resp).outcome.map (fun d => Payment.mk c d) ∧
    (getPayment c paymentId idemKey resp).outcome =
      (_getPaymentInfo c paymentId idemKey resp).outcome.map (fun d => Payment.mk c d) ∧
    (capturePayment c paymentId amount idemKey resp).outcome =
      (_capturePayment c paymentId amount idemKey resp).outcome.map
        (fun d => Payment.mk c d) ∧
    (cancelPayment c paymentId idemKey resp).outcome =
      (_cancelPayment c paymentId idemKey resp).outcome.map (fun d => Payment.mk c d) ∧
    (createRefund c paymentId amount idemKey resp).outcome =
      (_createRefund c paymentId amount idemKey resp).outcome.map
        (fun d => Refund.mk c d) ∧
    (getRefund c refundId idemKey resp).outcome =
      (_getRefundInfo c refundId idemKey resp).outcome.map (fun d => Refund.mk c d) ∧
    (∀ (α β : Type) (f : α → β) (s : Nat) (b : JsValue),
      ApiOutcome.map f (.apiError s b) = .apiError s b) ∧
    (∀ (α β : Type) (f : α → β) (e : String),
      ApiOutcome.map f (.transportError e) = .transportError e) ∧
    (createPayment c payload idemKey resp).outcome = .apiError resp.status parsed ∧
    (getPayment c paymentId idemKey resp).outcome = .apiError resp.status parsed ∧
    (capturePayment c paymentId amount idemKey resp).outcome =
      .apiError resp.status parsed ∧
    (cancelPayment c paymentId idemKey resp).outcome = .apiError resp.status parsed ∧
    (createRefund c paymentId amount idemKey resp).outcome =
      .apiError resp.status parsed ∧
    (getRefund c refundId idemKey resp).outcome = .apiError resp.status parsed := by
  have herr : handleResponse resp = .apiError resp.status parsed := by
    rw [handleResponse, hbody]
    exact if_neg hstatus
  refine ⟨rfl, rfl, rfl, rfl, rfl, rfl, fun _ _ _ _ _ => rfl, fun _ _ _ _ => rfl,
    ?_, ?_, ?_, ?_, ?_, ?_⟩ <;>
  simp [createPayment, _createPayment, getPayment, _getPaymentInfo, capturePayment,
    _capturePayment, cancelPayment, _cancelPayment, createRefund, _createRefund,
    getRefund, _getRefundInfo, utilsRequest, herr, ApiOutcome.map]

/-- C2 witness: a 404 response makes the public method reject with the APIError. -/
theorem facade_error_propagation_witness :
    (createRefund cfgEx "215d8da0-000f-50be-b000-0003308c89be" amountEx none
        respErrEx).outcome = .apiError 404 errBodyEx :=
  (facade_error_propagation cfgEx payloadEx amountEx
    "215d8da0-000f-50be-b000-0003308c89be" "216749f7-0016-50be-b000-078d43a63ae4"
    none respErrEx errBodyEx rfl (by decide)).2.2.2.2.2.2.2.2.2.2.2.2.1

/-- C5: for each of the six operations, a supplied idempotency key appears verbatim
as the `Idempotence-Key` header on the one outgoing request, and with the key omitted
no `Idempotence-Key` header is present. -/
theorem idempotence_key_forwarding (c : YandexCheckout) (payload amount : JsValue)
    (paymentId refundId key : String) (resp : HttpResponse) :
    (∀ req ∈ (createPayment c payload (some key) resp).requests,
      (IDEMPOTENCE_HEADER, key) ∈ req.headers) ∧
    (∀ req ∈ (getPayment c paymentId (some key) resp).requests,
      (IDEMPOTENCE_HEADER, key) ∈ req.headers) ∧
    (∀ req ∈ (capturePayment c paymentId amount (some key) resp).requests,
      (IDEMPOTENCE_HEADER, key) ∈ req.headers) ∧
    (∀ req ∈ (cancelPayment c paymentId (some key) resp).requests,
      (IDEMPOTENCE_HEADER, key) ∈ req.headers) ∧
    (∀ req ∈ (createRefund c paymentId amount (some key) resp).requests,
      (IDEMPOTENCE_HEADER, key) ∈ req.headers) ∧
    (∀ req ∈ (getRefund c refundId (some key) resp).requests,
      (IDEMPOTENCE_HEADER, key) ∈ req.headers) ∧
    (∀ req ∈ (createPayment c payload none resp).requests,
      ∀ v : String, (IDEMPOTENCE_HEADER, v) ∉ req.headers) ∧
    (∀ req ∈ (getPayment c paymentId none resp).requests,
      ∀ v : String, (IDEMPOTENCE_HEADER, v) ∉ req.headers) ∧
    (∀ req ∈ (capturePayment c paymentId amount none resp).requests,
      ∀ v : String, (IDEMPOTENCE_HEADER, v) ∉ req.headers) ∧
    (∀ req ∈ (cancelPayment c paymentId none resp).requests,
      ∀ v : String, (IDEMPOTENCE_HEADER, v) ∉ req.headers) ∧
    (∀ req ∈ (createRefund c paymentId amount none resp).requests,
      ∀ v : String, (IDEMPOTENCE_HEADER, v) ∉ req.headers) ∧
    (∀ req ∈ (getRefund c refundId none resp).requests,
      ∀ v : String, (IDEMPOTENCE_HEADER, v) ∉ req.headers) := by
  refine ⟨?_, ?_, ?_, ?_, ?_, ?_, ?_, ?_, ?_, ?_, ?_, ?_⟩ <;>
  · intro req hreq
    simp only [createPayment, _createPayment, getPayment, _getPaymentInfo,
      capturePayment, _capturePayment, cancelPayment, _cancelPayment, createRefund,
      _createRefund, getRefund, _getRefundInfo, utilsRequest,
      List.mem_singleton] at hreq
    subst hreq
    simp [buildRequest, IDEMPOTENCE_HEADER]

/-- C5 witness: the key lands in the headers; without a key the header is absent. -/
theorem idempotence_key_forwarding_witness :
    (IDEMPOTENCE_HEADER, "6daac9fa-342d-4264-91c5-b5eafd1a0010") ∈
      (buildRequest cfgEx "POST" "payments" payloadEx
        (some "6daac9fa-342d-4264-91c5-b5eafd1a0010")).headers ∧
    (IDEMPOTENCE_HEADER, "6daac9fa-342d-4264-91c5-b5eafd1a0010") ∉
      (buildRequest cfgEx "POST" "payments" payloadEx none).headers :=
  ⟨(idempotence_key_forwarding cfgEx payloadEx amountEx "pid" "rid"
      "6daac9fa-342d-4264-91c5-b5eafd1a0010" respOkEx).1
    (buildRequest cfgEx "POST" "payments" payloadEx
      (some "6daac9fa-342d-4264-91c5-b5eafd1a0010")) (List.mem_singleton.mpr rfl),
   (idempotence_key_forwarding cfgEx payloadEx amountEx "pid" "rid"
      "6daac9fa-342d-4264-91c5-b5eafd1a0010" respOkEx).2.2.2.2.2.2.1
    (buildRequest cfgEx "POST" "payments" payloadEx none)
    (List.mem_singleton.mpr rfl) "6daac9fa-342d-4264-91c5-b5eafd1a0010"⟩

/-- C6: the constructor accepts an options object or two positional string values;
omitted optional fields give base host `https://api.yookassa.ru`, base path `/v3/`,
debug `false` and the platform default timeout, and the base URL used for requests is
the concatenation of base host and base path. -/
theorem constructor_defaults (defaultTimeout sk2 : JsValue) (sid sk : String)
    (fields : List (String × JsValue))
    (hHost : fields.lookup "base_host" = none)
    (hPath : fields.lookup "base_path" = none)
    (hDebug : fields.lookup "debug" = none)
    (hTimeout : fields.lookup "timeout" = none) :
    YandexCheckout.create defaultTimeout (.obj fields) sk2 = some
      { shopId := (fields.lookup "shopId").getD .undefined
        secretKey := (fields.lookup "secretKey").getD .undefined
        root := .str (DEFAULT_BASE_HOST ++ DEFAULT_BASE_PATH)
        debug := .bool false
        timeout := defaultTimeout } ∧
    YandexCheckout.create defaultTimeout (.str sid) (.str sk) = some
      { shopId := .str sid
        secretKey := .str sk
        root := .str (DEFAULT_BASE_HOST ++ DEFAULT_BASE_PATH)
        debug := .bool false
        timeout := defaultTimeout } ∧
    DEFAULT_BASE_HOST ++ DEFAULT_BASE_PATH = "https://api.yookassa.ru/v3/" ∧
    (∀ (c : YandexCheckout) (m path : String) (body : JsValue) (k : Option String),
      c.root = .str (DEFAULT_BASE_HOST ++ DEFAULT_BASE_PATH) →
      (buildRequest c m path body k).url =
        (DEFAULT_BASE_HOST ++ DEFAULT_BASE_PATH) ++ path) := by
  refine ⟨?_, rfl, rfl, ?_⟩
  · rw [create_obj_eq, hHost, hPath, hDebug, hTimeout]
    rfl
  · intro c m path body k hroot
    simp [buildRequest, hroot, JsValue.jsAdd, JsValue.jsToString]

/-- C6 witness: the positional form, evaluated. -/
theorem constructor_defaults_witness :
    YandexCheckout.create (.num 0) (.str "your_shop_id") (.str "your_secret_key") =
      some { shopId := .str "your_shop_id"
             secretKey := .str "your_secret_key"
             root := .str (DEFAULT_BASE_HOST ++ DEFAULT_BASE_PATH)
             debug := .bool false
             timeout := .num 0 } :=
  (constructor_defaults (.num 0) .undefined "your_shop_id" "your_secret_key" []
    rfl rfl rfl rfl).2.1

/-- Helper: an API error in the settled transport outcome carries exactly the remote
response status and parsed body. -/
theorem handleResponse_apiError_inv (resp : HttpResponse) (s : Nat) (b : JsValue)
    (h : handleResponse resp = .apiError s b) :
    s = resp.status ∧ resp.body = some b := by
  obtain ⟨st, body⟩ := resp
  cases body with
  | none => exact absurd h (by simp [handleResponse])
  | some parsed =>
    by_cases hs : 200 ≤ st ∧ st < 300
    · rw [show handleResponse ⟨st, some parsed⟩ = .ok parsed by
        simp [handleResponse, hs]] at h
      exact absurd h (by simp)
    · rw [show handleResponse ⟨st, some parsed⟩ = .apiError st parsed by
        simp [handleResponse, hs]] at h
      simp only [ApiOutcome.apiError.injEq] at h
      exact ⟨h.1.symm, by rw [h.2]⟩

/-- C8: no local validation: constructing from any options object succeeds (a missing
shop id or secret key merely leaves the field `undefined`), every facade call issues
its single request and its outcome does not depend on the payload, and an `APIError`
in the outcome carries exactly the remote response status and parsed body. -/
theorem no_local_validation (defaultTimeout sk2 : JsValue)
    (fields : List (String × JsValue)) (c : YandexCheckout) (p1 p2 : JsValue)
    (idemKey : Option String) (resp : HttpResponse) :
    (∃ cfg, YandexCheckout.create defaultTimeout (.obj fields) sk2 = some cfg) ∧
    YandexCheckout.create defaultTimeout (.obj []) sk2 = some
      { shopId := .undefined
        secretKey := .undefined
        root := .str (DEFAULT_BASE_HOST ++ DEFAULT_BASE_PATH)
        debug := .bool false
        timeout := defaultTimeout } ∧
    (createPayment c p1 idemKey resp).requests.length = 1 ∧
    (createPayment c p1 idemKey resp).outcome =
      (createPayment c p2 idemKey resp).outcome ∧
    (∀ (s : Nat) (b : JsValue),
      (createPayment c p1 idemKey resp).outcome = .apiError s b →
      s = resp.status ∧ resp.body = some b) := by
  refine ⟨⟨_, create_obj_eq defaultTimeout sk2 fields⟩, rfl, rfl, rfl, ?_⟩
  intro s b h
  have h2 : (handleResponse resp).map (fun d => Payment.mk c d) = .apiError s b := h
  cases hr : handleResponse resp with
  | ok v => rw [hr] at h2; exact absurd h2 (by simp [ApiOutcome.map])
  | apiError s2 b2 =>
    rw [hr] at h2
    simp only [ApiOutcome.map, ApiOutcome.apiError.injEq] at h2
    exact handleResponse_apiError_inv resp s b (by rw [hr, h2.1, h2.2])
  | transportError e => rw [hr] at h2; exact absurd h2 (by simp [ApiOutcome.map])

/-- C8 witness: a 404 outcome indeed came from the remote response. -/
theorem no_local_validation_witness :
    404 = respErrEx.status ∧ respErrEx.body = some errBodyEx :=
  (no_local_validation (.num 0) .undefined [] cfgEx payloadEx (.obj []) none
    respErrEx).2.2.2.2 404 errBodyEx rfl

/-- C9: the client configuration is immutable: every facade operation, raw or
public, returns its receiver with all five configuration fields exactly as the
constructor set them, on success and failure alike. -/
theorem config_immutable (c : YandexCheckout) (payload amount : JsValue)
    (paymentId refundId : String) (idemKey : Option String) (resp : HttpResponse) :
    (createPayment c payload idemKey resp).self = c ∧
    (getPayment c paymentId idemKey resp).self = c ∧
    (capturePayment c paymentId amount idemKey resp).self = c ∧
    (cancelPayment c paymentId idemKey resp).self = c ∧
    (createRefund c paymentId amount idemKey resp).self = c ∧
    (getRefund c refundId idemKey resp).self = c ∧
    (_createPayment c payload idemKey resp).self = c ∧
    (_getPaymentInfo c paymentId idemKey resp).self = c ∧
    (_capturePayment c paymentId amount idemKey resp).self = c ∧
    (_cancelPayment c paymentId idemKey resp).self = c ∧
    (_createRefund c paymentId amount idemKey resp).self = c ∧
    (_getRefundInfo c refundId idemKey resp).self = c :=
  ⟨rfl, rfl, rfl, rfl, rfl, rfl, rfl, rfl, rfl, rfl, rfl, rfl⟩

/-- C10: an optional configuration field supplied with a falsy value is replaced by
the built-in default for that field, exactly as when the field is omitted. -/
theorem falsy_options_use_defaults (defaultTimeout sk2 v : JsValue)
    (fields : List (String × JsValue)) (cfg : YandexCheckout)
    (hcfg : YandexCheckout.create defaultTimeout (.obj fields) sk2 = some cfg)
    (hfalsy : v.truthy = false) :
    (fields.lookup "timeout" = some v → cfg.timeout = defaultTimeout) ∧
    (fields.lookup "debug" = some v → cfg.debug = DEFAULT_DEBUG) ∧
    (fields.lookup "base_host" = some v →
      cfg.root = (JsValue.str DEFAULT_BASE_HOST).jsAdd
        (((fields.lookup "base_path").getD .undefined).jsOr
          (.str DEFAULT_BASE_PATH))) ∧
    (fields.lookup "base_path" = some v →
      cfg.root = (((fields.lookup "base_host").getD .undefined).jsOr
        (.str DEFAULT_BASE_HOST)).jsAdd (.str DEFAULT_BASE_PATH)) := by
  rw [create_obj_eq] at hcfg
  have hc := Option.some.inj hcfg
  refine ⟨?_, ?_, ?_, ?_⟩ <;> intro h <;> rw [← hc] <;>
    simp [h, JsValue.jsOr, hfalsy]

/-- The client a falsy-heavy options object produces: every default applies. -/
def cfgFalsyEx : YandexCheckout :=
  { shopId := .undefined
    secretKey := .undefined
    root := .str (DEFAULT_BASE_HOST ++ DEFAULT_BASE_PATH)
    debug := .bool false
    timeout := .num 7 }

/-- C10 witness: `timeout: 0` supplied explicitly still yields the default. -/
theorem falsy_options_use_defaults_witness :
    YandexCheckout.create (.num 7)
        (.obj [("timeout", .num 0), ("base_host", .str ""), ("debug", .bool false)])
        .undefined = some cfgFalsyEx ∧
    cfgFalsyEx.timeout = .num 7 :=
  ⟨rfl,
   (falsy_options_use_defaults (.num 7) .undefined (.num 0)
     [("timeout", .num 0), ("base_host", .str ""), ("debug", .bool false)]
     cfgFalsyEx rfl rfl).1 rfl⟩
